import Mathlib

/-!
Shallow embedding of `src/editor/src/main.rs` ("Groovy Code", an iced-based
single-document text editor). The session state (`Editor`), the message type
(`Message`), the update function (`Editor.update`), the view's status bar and
save-button logic, the keyboard subscription, and the async `save_file` helper
are translated from the Rust source. The document type
(`iced::widget::text_editor::Content`) and the edit-action type
(`text_editor::Action`) live in the external `iced` library, not in this
repository; they are modelled from the spec (§3, §4.1) where noted.
-/

namespace Groovy

/-- Modelled from the spec: the coarse reason codes of `std::io::ErrorKind`
as the spec's error taxonomy names them (not-found, permission-denied, other).
The Rust code stores the full `io::ErrorKind`; only these three classes are
distinguished by the spec. -/
inductive IOErrorKind
  | notFound
  | permissionDenied
  | other
deriving DecidableEq, Repr

/-- Modelled from the spec / `std::io::ErrorKind`'s `Display`: the message
text produced by `error.to_string()` in the status bar. -/
def IOErrorKind.toString : IOErrorKind → String
  | .notFound => "entity not found"
  | .permissionDenied => "permission denied"
  | .other => "other error"

/-- `enum Error { DialogClosed, IOFailed(io::ErrorKind) }`
(src/editor/src/main.rs lines 247-251). -/
inductive Error
  | DialogClosed
  | IOFailed (kind : IOErrorKind)
deriving DecidableEq, Repr

/-- Modelled from the spec (§4.1): a cursor-movement direction. -/
inductive Direction
  | up
  | down
  | left
  | right
deriving DecidableEq, Repr

/-- Modelled from the spec (§4.1): the edit actions delivered to
`Document.apply` — `text_editor::Action` in the iced library (external to this
repository). Insert-character, insert-newline, delete-backward, delete-forward
are the content-modifying actions; move-cursor and select-range are not. -/
inductive Action
  | insertChar (c : Char)
  | insertNewline
  | deleteBackward
  | deleteForward
  | moveCursor (d : Direction) (extendSel : Bool)
  | selectRange (anchor target : Nat × Nat)
deriving DecidableEq, Repr

/-- `Action::is_edit` of the iced library, modelled from the spec (§4.1):
"Returns whether the action counts as a content modification (moves/selection
do not; insert/delete do)". -/
def Action.is_edit : Action → Bool
  | .insertChar _ => true
  | .insertNewline => true
  | .deleteBackward => true
  | .deleteForward => true
  | .moveCursor _ _ => false
  | .selectRange _ _ => false

/-- Split a character sequence at newline characters into lines. An empty
sequence is one empty line; a trailing newline yields a trailing empty line. -/
def splitLines : List Char → List (List Char)
  | [] => [[]]
  | c :: cs =>
    match splitLines cs with
    | [] => [[]]
    | l :: ls => if c = '\n' then [] :: l :: ls else (c :: l) :: ls

/-- Join lines with newline characters (inverse of `splitLines`). -/
def joinLines : List (List Char) → List Char
  | [] => []
  | [l] => l
  | l :: l' :: ls => l ++ '\n' :: joinLines (l' :: ls)

/-- Modelled from the spec (§3, §4.1): the Document —
`text_editor::Content` of the iced library (external to this repository).
"text: ordered sequence of lines (each an ordered sequence of characters)";
"cursor: a (line, column) position, 0-based internally". -/
structure Content where
  lines : List (List Char)
  cursor : Nat × Nat
deriving DecidableEq, Repr

/-- `Content::new()`, modelled from the spec (§4.1): "empty document, cursor
at (0,0)". -/
def Content.new : Content := ⟨[[]], (0, 0)⟩

/-- `Content::with(text)`, modelled from the spec (§4.1) `load`:
"replaces entire content, places cursor at (0,0)". (`with` is reserved in
Lean, hence `withText`.) -/
def Content.withText (s : String) : Content := ⟨splitLines s.data, (0, 0)⟩

/-- `Content::text()`, modelled from the spec (§4.1): "produces the full
content as a single string (lines joined by newline)". -/
def Content.text (c : Content) : String := ⟨joinLines c.lines⟩

/-- Clamp a (line, column) position into the current buffer bounds,
modelled from the spec (§4.1): "move-cursor past buffer bounds clamps rather
than errors". -/
def Content.clamp (lines : List (List Char)) (p : Nat × Nat) : Nat × Nat :=
  let li := min p.1 (lines.length - 1)
  (li, min p.2 (lines.getD li []).length)

/-- `Content::edit(action)`, modelled from the spec (§4.1) `apply`: mutates
text and/or cursor. Insert places the cursor immediately after the inserted
content; deleting at (0,0) is a no-op; backspace/delete at a line boundary
joins lines; moves clamp at the buffer bounds. The spec leaves selection
state unspecified, so `selectRange` here only places the cursor at the
(clamped) target end of the range. -/
def Content.edit (a : Action) (c : Content) : Content :=
  let li := c.cursor.1
  let col := c.cursor.2
  let line := c.lines.getD li []
  match a with
  | .insertChar ch =>
    { lines := c.lines.set li (line.take col ++ ch :: line.drop col),
      cursor := (li, col + 1) }
  | .insertNewline =>
    { lines := c.lines.take li ++ [line.take col, line.drop col] ++
        c.lines.drop (li + 1),
      cursor := (li + 1, 0) }
  | .deleteBackward =>
    if 0 < col then
      { lines := c.lines.set li (line.take (col - 1) ++ line.drop col),
        cursor := (li, col - 1) }
    else if 0 < li then
      let prev := c.lines.getD (li - 1) []
      { lines := c.lines.take (li - 1) ++ [prev ++ line] ++
          c.lines.drop (li + 1),
        cursor := (li - 1, prev.length) }
    else c
  | .deleteForward =>
    if col < line.length then
      { lines := c.lines.set li (line.take col ++ line.drop (col + 1)),
        cursor := c.cursor }
    else if li + 1 < c.lines.length then
      let next := c.lines.getD (li + 1) []
      { lines := c.lines.take li ++ [line ++ next] ++ c.lines.drop (li + 2),
        cursor := c.cursor }
    else c
  | .moveCursor d _extendSel =>
    let p :=
      match d with
      | .left =>
        if 0 < col then (li, col - 1)
        else if 0 < li then (li - 1, (c.lines.getD (li - 1) []).length)
        else (0, 0)
      | .right =>
        if col < line.length then (li, col + 1)
        else if li + 1 < c.lines.length then (li + 1, 0)
        else (li, col)
      | .up =>
        if 0 < li then (li - 1, min col (c.lines.getD (li - 1) []).length)
        else (li, col)
      | .down =>
        if li + 1 < c.lines.length then
          (li + 1, min col (c.lines.getD (li + 1) []).length)
        else (li, col)
    { c with cursor := p }
  | .selectRange _anchor target => { c with cursor := Content.clamp c.lines target }

/-- `enum Message` (src/editor/src/main.rs lines 30-38). `PathBuf` is
modelled as `String`; `Arc<String>` as `String`; `Result<T, Error>` as
`Except Error T`. -/
inductive Message
  | Edit (action : Action)
  | Open
  | New
  | FileOpened (result : Except Error (String × String))
  | FileSaved (result : Except Error String)
  | Save
deriving Repr

/-- The `iced::Command` values returned by `Editor::update`: either
`Command::none()` or a `Command::perform` of one of the async helpers of
src/editor/src/main.rs, with the arguments it captures. -/
inductive Command
  | none
  | performPickFile
  | performSaveFile (path : Option String) (text : String)
  | performLoadFile (path : String)
deriving DecidableEq, Repr

/-- `struct Editor` (src/editor/src/main.rs lines 23-28). -/
structure Editor where
  path : Option String
  content : Content
  error : Option Error
  is_dirty : Bool
deriving DecidableEq, Repr

/-- `Editor::update` (src/editor/src/main.rs lines 65-114). The source has
two match arms for `Message::FileOpened(Ok(..))` (lines 81-86 and lines
93-97); Rust takes the first matching arm, so the second — which also sets
`is_dirty = false` — is unreachable (the Rust compiler flags it as an
unreachable pattern). Only the first, reachable arm is translated here. -/
def Editor.update (e : Editor) (m : Message) : Editor × Command :=
  match m with
  | .Edit action =>
    ({ e with
        is_dirty := e.is_dirty || action.is_edit,
        error := none,
        content := e.content.edit action }, .none)
  | .New =>
    ({ e with path := none, content := Content.new, is_dirty := true }, .none)
  | .Open => (e, .performPickFile)
  | .FileOpened (.ok (path, content)) =>
    ({ e with path := some path, content := Content.withText content }, .none)
  | .Save => (e, .performSaveFile e.path e.content.text)
  | .FileSaved (.ok path) =>
    ({ e with path := some path, is_dirty := false }, .none)
  | .FileSaved (.error error) => ({ e with error := some error }, .none)
  | .FileOpened (.error error) => ({ e with error := some error }, .none)

/-- The status text of `Editor::view`'s status bar
(src/editor/src/main.rs lines 146-154): the error's message when
`self.error` is `Some(Error::IOFailed(..))`, otherwise the path when present,
otherwise the literal `"New File  "` label. -/
def Editor.statusText (e : Editor) : String :=
  match e.error with
  | some (Error.IOFailed error) => error.toString
  | _ =>
    match e.path with
    | some path => path
    | none => "New File  "

/-- The `on_press` of the Save button in `Editor::view`'s controls row
(src/editor/src/main.rs line 141): `self.is_dirty.then_some(Message::Save)` —
the button is disabled (no message) exactly when `is_dirty` is false. -/
def Editor.saveButtonOnPress (e : Editor) : Option Message :=
  if e.is_dirty then some Message.Save else none

/-- The keyboard keys distinguished by `Editor::subscription`:
`KeyCode::S` versus every other key. -/
inductive KeyCode
  | S
  | otherKey
deriving DecidableEq, Repr

/-- The modifier state; `command` is iced's `Modifiers::command()`
(the platform's conventional save modifier). -/
structure Modifiers where
  command : Bool
deriving DecidableEq, Repr

/-- The key-press handler of `Editor::subscription`
(src/editor/src/main.rs lines 116-123): maps modifier+S to `Message::Save`
and every other key press to no message. It does not read the session
state at all. -/
def subscriptionOnKeyPress (keycode : KeyCode) (modifiers : Modifiers) :
    Option Message :=
  match keycode with
  | .S => if modifiers.command then some Message.Save else none
  | .otherKey => none

/-- `save_file` (src/editor/src/main.rs lines 218-235), as a pure function
of its environment: `dialog` is the outcome of the save-file dialog
(`none` = cancelled), `writeFn path text` the outcome of
`tokio::fs::write`. Besides the `Result` it returns the list of
(path, text) write attempts it performed, so that "nothing is written"
is expressible. -/
def save_file (dialog : Option String)
    (writeFn : String → String → Except IOErrorKind Unit)
    (path : Option String) (text : String) :
    Except Error String × List (String × String) :=
  match path with
  | some p =>
    (match writeFn p text with
      | .ok _ => .ok p
      | .error k => .error (.IOFailed k), [(p, text)])
  | none =>
    match dialog with
    | none => (.error .DialogClosed, [])
    | some p =>
      (match writeFn p text with
        | .ok _ => .ok p
        | .error k => .error (.IOFailed k), [(p, text)])

/-- `load_file` (src/editor/src/main.rs lines 237-245), as a pure function
of the filesystem read outcome. -/
def load_file (readFn : String → Except IOErrorKind String) (path : String) :
    Except Error (String × String) :=
  match readFn path with
  | .ok contents => .ok (path, contents)
  | .error k => .error (.IOFailed k)

/-- `pick_file` (src/editor/src/main.rs lines 207-217): `dialog` is the
outcome of the open-file dialog (`none` = cancelled), then `load_file`. -/
def pick_file (dialog : Option String)
    (readFn : String → Except IOErrorKind String) :
    Except Error (String × String) :=
  match dialog with
  | none => .error .DialogClosed
  | some p => load_file readFn p

/-! ## Basic lemmas about the line representation -/

theorem splitLines_ne_nil (cs : List Char) : splitLines cs ≠ [] := by
  cases cs with
  | nil => simp [splitLines]
  | cons c cs =>
    simp only [splitLines]
    cases splitLines cs with
    | nil => simp
    | cons l ls =>
      by_cases h : c = '\n' <;> simp [h]

theorem joinLines_splitLines (cs : List Char) :
    joinLines (splitLines cs) = cs := by
  induction cs with
  | nil => rfl
  | cons c cs ih =>
    simp only [splitLines]
    cases h : splitLines cs with
    | nil => exact absurd h (splitLines_ne_nil cs)
    | cons l ls =>
      rw [h] at ih
      by_cases hc : c = '\n'
      · subst hc
        simp [joinLines, ih]
      · cases ls with
        | nil =>
          simp only [joinLines] at ih
          simp [hc, joinLines, ih]
        | cons l' ls' =>
          simp only [joinLines] at ih
          simp [joinLines, hc, ih]

/-! ## Claim theorems -/

/-- C1 (code bug): processing `FileOpened(Ok(p, c))` does set `path = Some(p)`
and replace the content with `c`, but — because the only match arm that sets
`is_dirty = false` is an unreachable duplicate (src/editor/src/main.rs lines
93-97, shadowed by lines 81-86) and no arm clears the error — it leaves
`is_dirty` and `last_error` untouched, where the claim requires
`is_dirty = false` and `last_error = None`. Evaluated on a dirty state with a
pending error. -/
theorem c1_fileOpened_ok_keeps_dirty_and_error :
    (Editor.update
      { path := none, content := Content.new,
        error := some Error.DialogClosed, is_dirty := true }
      (Message.FileOpened (Except.ok ("p.rs", "line1\nline2")))).1 =
    { path := some "p.rs", content := Content.withText "line1\nline2",
      error := some Error.DialogClosed, is_dirty := true } := rfl

/-- C2 (code bug): `is_dirty` does become true at the first content-modifying
action, but a subsequently processed successful Open completion leaves it
true — the arm of `Editor::update` that would reset it on `FileOpened(Ok)` is
an unreachable duplicate — so the dirty period is not ended by a successful
Open as the claim requires. Evaluated on a clean state: one insert makes it
dirty, and `FileOpened(Ok(..))` leaves it dirty. -/
theorem c2_dirty_survives_successful_open :
    let e0 : Editor :=
      { path := some "p.rs", content := Content.withText "x",
        error := none, is_dirty := false }
    let e1 := (e0.update (Message.Edit (Action.insertChar 'a'))).1
    let e2 := (e1.update (Message.FileOpened (Except.ok ("q.rs", "y")))).1
    e1.is_dirty = true ∧ e2.is_dirty = true :=
  ⟨rfl, rfl⟩

/-- C3: for every session state and error, processing `FileOpened(Err(e))` or
`FileSaved(Err(e))` sets `last_error` to `Some(e)` and leaves `path`, the
document content and `is_dirty` unchanged. -/
theorem c3_failure_is_atomic (e : Editor) (err : Error) :
    ((e.update (Message.FileOpened (Except.error err))).1.error = some err ∧
     (e.update (Message.FileOpened (Except.error err))).1.path = e.path ∧
     (e.update (Message.FileOpened (Except.error err))).1.content = e.content ∧
     (e.update (Message.FileOpened (Except.error err))).1.is_dirty = e.is_dirty) ∧
    ((e.update (Message.FileSaved (Except.error err))).1.error = some err ∧
     (e.update (Message.FileSaved (Except.error err))).1.path = e.path ∧
     (e.update (Message.FileSaved (Except.error err))).1.content = e.content ∧
     (e.update (Message.FileSaved (Except.error err))).1.is_dirty = e.is_dirty) :=
  ⟨⟨rfl, rfl, rfl, rfl⟩, ⟨rfl, rfl, rfl, rfl⟩⟩

/-- C4: for every text `X`, loading `X` into the document and reading the
text back returns exactly `X` — the load/text round-trip is lossless. -/
theorem c4_load_text_roundtrip (s : String) :
    (Content.withText s).text = s := by
  cases s with
  | mk data =>
    simp [Content.withText, Content.text, joinLines_splitLines]

/-- C5 (counterexample): a state whose `last_error` is `Some(DialogClosed)`
displays the new-file label, not the error — its status text is identical to
that of the same state with no error at all, so the display does not include
the text of a `DialogClosed` error as the claim requires. -/
theorem c5_dialogClosed_not_displayed :
    let e : Editor :=
      { path := none, content := Content.new,
        error := some Error.DialogClosed, is_dirty := false }
    e.statusText = "New File  " ∧
    e.statusText = Editor.statusText { e with error := none } :=
  ⟨rfl, rfl⟩

/-- C5 (amended): whenever `last_error` is `Some(IOFailed(kind))` the status
area shows the kind's message text; in every other case — `last_error` is
`None` or `Some(DialogClosed)` — it shows the current file path, or the
new-file label when there is none. -/
theorem c5_status_display (e : Editor) :
    (∀ k, e.error = some (Error.IOFailed k) → e.statusText = k.toString) ∧
    ((∀ k, e.error ≠ some (Error.IOFailed k)) →
      e.statusText =
        match e.path with
        | some p => p
        | none => "New File  ") := by
  constructor
  · intro k hk
    simp [Editor.statusText, hk]
  · intro h
    cases he : e.error with
    | none => simp [Editor.statusText, he]
    | some err =>
      cases err with
      | DialogClosed => simp [Editor.statusText, he]
      | IOFailed k => exact absurd he (h k)

/-- C5 witness: concrete evaluations of `c5_status_display`, on a state with
an `IOFailed NotFound` error and on an error-free state with a path. -/
theorem c5_status_display_witness :
    Editor.statusText
      { path := some "a.rs", content := Content.new,
        error := some (Error.IOFailed IOErrorKind.notFound),
        is_dirty := true } = "entity not found" ∧
    Editor.statusText
      { path := some "a.rs", content := Content.new,
        error := none, is_dirty := true } = "a.rs" :=
  ⟨(c5_status_display _).1 IOErrorKind.notFound rfl,
   (c5_status_display _).2 (fun _ h => by simp at h)⟩

/-- C6: when `path` is `None`, issuing Save performs `save_file` with no
path; if the user cancels the save dialog, `save_file` performs no write and
returns `Err(DialogClosed)`, and processing the resulting `FileSaved`
completion sets `last_error = Some(DialogClosed)` while `path` stays `None`
and `is_dirty` is unchanged. -/
theorem c6_cancelled_save (e : Editor)
    (writeFn : String → String → Except IOErrorKind Unit)
    (h : e.path = none) :
    (e.update Message.Save).2 = Command.performSaveFile none e.content.text ∧
    (save_file none writeFn none e.content.text).2 = [] ∧
    (save_file none writeFn none e.content.text).1 =
      Except.error Error.DialogClosed ∧
    (e.update (Message.FileSaved
      (save_file none writeFn none e.content.text).1)).1.path = none ∧
    (e.update (Message.FileSaved
      (save_file none writeFn none e.content.text).1)).1.is_dirty =
      e.is_dirty ∧
    (e.update (Message.FileSaved
      (save_file none writeFn none e.content.text).1)).1.error =
      some Error.DialogClosed := by
  refine ⟨?_, rfl, rfl, ?_, rfl, rfl⟩
  · simp [Editor.update, h]
  · simp [save_file, Editor.update, h]

/-- C6 witness: `c6_cancelled_save` evaluated at a concrete dirty session
with no path and an always-succeeding write function. -/
theorem c6_cancelled_save_witness :
    (Editor.update
      { path := none, content := Content.withText "abc",
        error := none, is_dirty := true } Message.Save).2 =
      Command.performSaveFile none "abc" ∧
    (save_file none (fun _ _ => Except.ok ()) none "abc").2 = [] ∧
    (save_file none (fun _ _ => Except.ok ()) none "abc").1 =
      Except.error Error.DialogClosed ∧
    (Editor.update
      { path := none, content := Content.withText "abc",
        error := none, is_dirty := true }
      (Message.FileSaved
        (save_file none (fun _ _ => Except.ok ()) none "abc").1)).1.path =
      none ∧
    (Editor.update
      { path := none, content := Content.withText "abc",
        error := none, is_dirty := true }
      (Message.FileSaved
        (save_file none (fun _ _ => Except.ok ()) none "abc").1)).1.is_dirty =
      true ∧
    (Editor.update
      { path := none, content := Content.withText "abc",
        error := none, is_dirty := true }
      (Message.FileSaved
        (save_file none (fun _ _ => Except.ok ()) none "abc").1)).1.error =
      some Error.DialogClosed :=
  c6_cancelled_save
    { path := none, content := Content.withText "abc",
      error := none, is_dirty := true }
    (fun _ _ => Except.ok ()) rfl

/-- C7: for every session state and path `p`, processing `FileSaved(Ok(p))`
sets `path = Some(p)` and `is_dirty = false` and leaves the document content
unchanged. -/
theorem c7_fileSaved_ok (e : Editor) (p : String) :
    (e.update (Message.FileSaved (Except.ok p))).1.path = some p ∧
    (e.update (Message.FileSaved (Except.ok p))).1.is_dirty = false ∧
    (e.update (Message.FileSaved (Except.ok p))).1.content = e.content :=
  ⟨rfl, rfl, rfl⟩

/-- C8: in every session state, processing `New` replaces the document with
the empty one (whose text is `""`), sets `path = None` and `is_dirty = true`,
and returns no command — no asynchronous operation is initiated. -/
theorem c8_new_synchronous (e : Editor) :
    (e.update Message.New).1.content = Content.new ∧
    Content.new.text = "" ∧
    (e.update Message.New).1.path = none ∧
    (e.update Message.New).1.is_dirty = true ∧
    (e.update Message.New).2 = Command.none :=
  ⟨rfl, rfl, rfl, rfl, rfl⟩

/-- C9: every edit action — content-modifying or not — sets `last_error` to
`None`, and a failed Open or Save processed afterwards replaces `last_error`
with the newest error value, whatever the previous one was. -/
theorem c9_error_clearing (e : Editor) (a : Action) (err : Error) :
    (e.update (Message.Edit a)).1.error = none ∧
    (e.update (Message.FileOpened (Except.error err))).1.error = some err ∧
    (e.update (Message.FileSaved (Except.error err))).1.error = some err :=
  ⟨rfl, rfl, rfl⟩

/-- C10: the modifier+S key mapping yields `Save` without consulting the
session state; in every state with `is_dirty = false` the Save button's
on-press is disabled, yet `update` on `Save` still issues the `save_file`
command, and `save_file` with an existing path performs the write. -/
theorem c10_shortcut_saves_when_clean (e : Editor) (p txt : String)
    (h : e.is_dirty = false) :
    subscriptionOnKeyPress KeyCode.S { command := true } = some Message.Save ∧
    e.saveButtonOnPress = none ∧
    (e.update Message.Save).2 = Command.performSaveFile e.path e.content.text ∧
    (∀ dialog writeFn,
      (save_file dialog writeFn (some p) txt).2 = [(p, txt)]) := by
  refine ⟨rfl, ?_, rfl, fun _ _ => rfl⟩
  simp [Editor.saveButtonOnPress, h]

/-- C10 witness: `c10_shortcut_saves_when_clean` evaluated at a concrete
clean session. -/
theorem c10_shortcut_saves_when_clean_witness :
    subscriptionOnKeyPress KeyCode.S { command := true } = some Message.Save ∧
    Editor.saveButtonOnPress
      { path := some "p.rs", content := Content.withText "abc",
        error := none, is_dirty := false } = none ∧
    (Editor.update
      { path := some "p.rs", content := Content.withText "abc",
        error := none, is_dirty := false } Message.Save).2 =
      Command.performSaveFile (some "p.rs")
        (Content.withText "abc").text ∧
    (∀ dialog writeFn,
      (save_file dialog writeFn (some "p.rs") "abc").2 = [("p.rs", "abc")]) :=
  c10_shortcut_saves_when_clean
    { path := some "p.rs", content := Content.withText "abc",
      error := none, is_dirty := false }
    "p.rs" "abc" rfl

end Groovy
